import Mathlib

/-!
# Verification of the cluster reboot / modify orchestration

Shallow embedding of the cluster-mutating resources of the
`terraform-provider-gdp-middleware-helper` repository
(`internal/provider/aurora_reboot_resource.go`,
`internal/provider/neptune_reboot_resource.go`, and the
`NeptuneModifyResource` of the modify-resource file).

The AWS SDK is modelled as an environment of response functions
(`Except`-valued, one per API call the code makes), and every `Create` /
`Update` / `Read` method is translated into a pure function from that
environment and the Terraform plan data to the ordered trace of API calls it
issues together with the outcome it records.  Terraform framework nullable
attributes (`types.String`, `types.Bool`, `types.List`) are modelled as
`Option`; a diagnostics `AddError(title, detail)` followed by `return` is the
`Outcome.failure title detail` constructor, and a successful run that stores
the freshly formatted `time.Now()` timestamp into state is
`Outcome.success now`, with `now` passed in as the clock reading.
-/

namespace GdpHelper

/-- One member of a described DB cluster (`types.DBClusterMember`): the
fields the provider code reads. -/
structure DBClusterMember where
  dbInstanceIdentifier : String
  isClusterWriter : Bool
  deriving DecidableEq, Repr

/-- A described DB cluster: its member list and its engine-reported status
string (the only cluster fields the provider code reads). -/
structure DBCluster where
  dbClusterMembers : List DBClusterMember
  status : String
  deriving DecidableEq, Repr

/-- Model of `rds.RebootDBInstanceInput` as the provider builds it: the instance
identifier, and the optional `ForceFailover` field (`none` = left unset). -/
structure RebootDBInstanceInput where
  dbInstanceIdentifier : String
  forceFailover : Option Bool
  deriving DecidableEq, Repr

/-- The API calls the embedded methods can issue, in the order issued. -/
inductive Call where
  | describeClusters (clusterId : String)
  | rebootInstance (input : RebootDBInstanceInput)
  | failoverCluster (clusterId : String) (target : String)
  | waitInstanceAvailable (instanceId : String)
  | waitClusterAvailable (clusterId : String)
  | modifyCluster (clusterId : String)
  deriving DecidableEq, Repr

/-- The outcome a resource method records: either the saved state carrying
the freshly formatted reboot/modification timestamp, or the diagnostic error
(title, detail) it added before returning early. -/
inductive Outcome where
  | success (lastTime : String)
  | failure (title : String) (detail : String)
  deriving DecidableEq, Repr

/-- Outcome of a `Read` method: state saved, or a diagnostic error. -/
inductive ReadOutcome where
  | ok
  | failure (title : String) (detail : String)
  deriving DecidableEq, Repr

/-- Project a call to its reboot input, if it is a reboot call. -/
def rebootCallOf : Call → Option RebootDBInstanceInput
  | Call.rebootInstance inp => some inp
  | _ => none

/-- Project a call to its (cluster, target) pair, if it is a failover call. -/
def failoverCallOf : Call → Option (String × String)
  | Call.failoverCluster cid tgt => some (cid, tgt)
  | _ => none

/-- Project a call to its instance id, if it is a per-instance wait. -/
def instanceWaitOf : Call → Option String
  | Call.waitInstanceAvailable iid => some iid
  | _ => none

/-- Project a call to its cluster id, if it is a cluster-level wait. -/
def clusterWaitOf : Call → Option String
  | Call.waitClusterAvailable cid => some cid
  | _ => none

/-- The reboot inputs among a trace, in order. -/
def rebootCallsOf (tr : List Call) : List RebootDBInstanceInput :=
  tr.filterMap rebootCallOf

/-- The (cluster, target) pairs of failover calls among a trace, in order. -/
def failoverCallsOf (tr : List Call) : List (String × String) :=
  tr.filterMap failoverCallOf

/-- The instance identifiers of per-instance waits among a trace, in order. -/
def instanceWaitsOf (tr : List Call) : List String :=
  tr.filterMap instanceWaitOf

/-- The cluster identifiers of cluster-level waits among a trace, in order. -/
def clusterWaitsOf (tr : List Call) : List String :=
  tr.filterMap clusterWaitOf

/-- The `region`-dependent client setup at the top of every method: when the
`region` attribute is non-null, `config.LoadDefaultConfig(..., WithRegion)`
runs and may fail; when it is null the already configured client is used. -/
def resolveConfig (load : String → Except String Unit) :
    Option String → Except String Unit
  | some reg => load reg
  | none => Except.ok ()

/-! ## Aurora reboot resource (`aurora_reboot_resource.go`) -/

/-- The AWS responses visible to `AuroraRebootResource`. -/
structure AuroraEnv where
  loadConfigWithRegion : String → Except String Unit
  describeDBClusters : String → Except String (List DBCluster)
  rebootDBInstance : RebootDBInstanceInput → Except String Unit
  failoverDBCluster : String → String → Except String Unit
  waitClusterAvailable : String → Except String Unit

/-- The plan data of `aurora_reboot` (`AuroraRebootResourceModel`): required
cluster identifier, optional region, optional force-failover flag. -/
structure AuroraRebootResourceModel where
  clusterIdentifier : String
  region : Option String
  forceFailover : Option Bool
  deriving DecidableEq, Repr

/-- The first non-writer member, exactly as the provider's scan loop finds it
(`hasReaderInstance` / `readerInstanceID`: first match in list order wins). -/
def auroraFindReader (members : List DBClusterMember) : Option DBClusterMember :=
  members.find? (fun m => !m.isClusterWriter)

/-- The per-instance reboot input of the Aurora fan-out: `ForceFailover` is
copied from the attribute only when the cluster has at least 2 instances and
the attribute is non-null (`if instanceCount >= 2 && !data.ForceFailover.IsNull()`). -/
def auroraRebootInput (instanceCount : Nat) (forceFailover : Option Bool)
    (member : DBClusterMember) : RebootDBInstanceInput :=
  { dbInstanceIdentifier := member.dbInstanceIdentifier
    forceFailover := if 2 ≤ instanceCount then forceFailover else none }

/-- The Aurora per-member reboot loop: one `RebootDBInstance` per member in
list order; the first error adds a diagnostic and returns, skipping the rest. -/
def auroraRebootFanOut (env : AuroraEnv) (instanceCount : Nat)
    (forceFailover : Option Bool) :
    List DBClusterMember → List Call × Option (String × String)
  | [] => ([], none)
  | member :: rest =>
    let inp := auroraRebootInput instanceCount forceFailover member
    match env.rebootDBInstance inp with
    | Except.error e =>
        ([Call.rebootInstance inp],
         some ("Error rebooting Aurora instance",
               "Could not reboot Aurora instance " ++ member.dbInstanceIdentifier
                 ++ ": " ++ e))
    | Except.ok _ =>
        let r := auroraRebootFanOut env instanceCount forceFailover rest
        (Call.rebootInstance inp :: r.1, r.2)

/-- The strategy step of `AuroraRebootResource.Create`/`Update`: failover to
the first reader iff the cluster has ≥ 2 instances, a reader exists, and
`force_failover` is explicitly `true`; otherwise reboot every member. -/
def auroraRebootMutation (env : AuroraEnv) (data : AuroraRebootResourceModel)
    (cluster : DBCluster) : List Call × Option (String × String) :=
  let instanceCount := cluster.dbClusterMembers.length
  match auroraFindReader cluster.dbClusterMembers with
  | some reader =>
    if 2 ≤ instanceCount ∧ data.forceFailover = some true then
      match env.failoverDBCluster data.clusterIdentifier reader.dbInstanceIdentifier with
      | Except.error e =>
          ([Call.failoverCluster data.clusterIdentifier reader.dbInstanceIdentifier],
           some ("Error failing over Aurora cluster",
                 "Could not failover Aurora cluster: " ++ e))
      | Except.ok _ =>
          ([Call.failoverCluster data.clusterIdentifier reader.dbInstanceIdentifier],
           none)
    else auroraRebootFanOut env instanceCount data.forceFailover cluster.dbClusterMembers
  | none => auroraRebootFanOut env instanceCount data.forceFailover cluster.dbClusterMembers

/-- Embedding of `AuroraRebootResource.Create` (the `Update` method is the
same orchestration): resolve config, describe the cluster, report NotFound on
an empty describe result, run the strategy step, then a single cluster-level
native wait (`rds.NewDBClusterAvailableWaiter`, 30-minute budget), and only
then record `time.Now()` as `last_reboot_time`. -/
def auroraRebootCreate (env : AuroraEnv) (data : AuroraRebootResourceModel)
    (now : String) : List Call × Outcome :=
  match resolveConfig env.loadConfigWithRegion data.region with
  | Except.error e =>
      ([], Outcome.failure "Unable to load AWS SDK config"
        ("Unable to load AWS SDK config with region "
          ++ (data.region.getD "") ++ ": " ++ e))
  | Except.ok _ =>
    match env.describeDBClusters data.clusterIdentifier with
    | Except.error e =>
        ([Call.describeClusters data.clusterIdentifier],
         Outcome.failure "Error describing Aurora cluster"
           ("Could not describe Aurora cluster: " ++ e))
    | Except.ok [] =>
        ([Call.describeClusters data.clusterIdentifier],
         Outcome.failure "Aurora cluster not found"
           ("No Aurora cluster found with identifier: " ++ data.clusterIdentifier))
    | Except.ok (cluster :: _) =>
      match auroraRebootMutation env data cluster with
      | (calls, some (title, detail)) =>
          (Call.describeClusters data.clusterIdentifier :: calls,
           Outcome.failure title detail)
      | (calls, none) =>
        match env.waitClusterAvailable data.clusterIdentifier with
        | Except.error e =>
            (Call.describeClusters data.clusterIdentifier :: calls
               ++ [Call.waitClusterAvailable data.clusterIdentifier],
             Outcome.failure "Error waiting for Aurora cluster to become available"
               ("Could not confirm Aurora cluster availability: " ++ e))
        | Except.ok _ =>
            (Call.describeClusters data.clusterIdentifier :: calls
               ++ [Call.waitClusterAvailable data.clusterIdentifier],
             Outcome.success now)

/-- Embedding of `AuroraRebootResource.Read`: resolve config, one `DescribeDBClusters`
call; any error is reported immediately, otherwise state is saved as is. -/
def auroraRebootRead (env : AuroraEnv) (data : AuroraRebootResourceModel) :
    List Call × ReadOutcome :=
  match resolveConfig env.loadConfigWithRegion data.region with
  | Except.error e =>
      ([], ReadOutcome.failure "Unable to load AWS SDK config"
        ("Unable to load AWS SDK config with region "
          ++ (data.region.getD "") ++ ": " ++ e))
  | Except.ok _ =>
    match env.describeDBClusters data.clusterIdentifier with
    | Except.error e =>
        ([Call.describeClusters data.clusterIdentifier],
         ReadOutcome.failure "Error reading Aurora cluster"
           ("Could not read Aurora cluster: " ++ e))
    | Except.ok _ =>
        ([Call.describeClusters data.clusterIdentifier], ReadOutcome.ok)

/-! ## Neptune reboot resource (`neptune_reboot_resource.go`) -/

/-- The AWS responses visible to `NeptuneRebootResource`.  The Neptune code
never sets `ForceFailover`, so its reboot call carries just the instance id,
and its wait is the per-instance `neptune.NewDBInstanceAvailableWaiter`. -/
structure NeptuneEnv where
  loadConfigWithRegion : String → Except String Unit
  describeDBClusters : String → Except String (List DBCluster)
  rebootDBInstance : String → Except String Unit
  waitInstanceAvailable : String → Except String Unit

/-- The plan data of `neptune_reboot` (`NeptuneRebootResourceModel`). -/
structure NeptuneRebootResourceModel where
  clusterIdentifier : String
  region : Option String
  deriving DecidableEq, Repr

/-- The Neptune per-member reboot loop: one `RebootDBInstance` (identifier
only, `ForceFailover` left unset) per member in list order; the first error
adds a diagnostic and returns, skipping the rest. -/
def neptuneRebootFanOut (env : NeptuneEnv) :
    List DBClusterMember → List Call × Option (String × String)
  | [] => ([], none)
  | member :: rest =>
    let instanceId := member.dbInstanceIdentifier
    match env.rebootDBInstance instanceId with
    | Except.error e =>
        ([Call.rebootInstance ⟨instanceId, none⟩],
         some ("Error rebooting Neptune instance",
               "Could not reboot Neptune instance " ++ instanceId ++ ": " ++ e))
    | Except.ok _ =>
        let r := neptuneRebootFanOut env rest
        (Call.rebootInstance ⟨instanceId, none⟩ :: r.1, r.2)

/-- The Neptune wait loop: one blocking per-instance wait per member, issued
sequentially in the same member order as the reboots; the first wait error
adds a diagnostic and returns, leaving the remaining members unwatched. -/
def neptuneWaitAll (env : NeptuneEnv) :
    List DBClusterMember → List Call × Option (String × String)
  | [] => ([], none)
  | member :: rest =>
    let instanceId := member.dbInstanceIdentifier
    match env.waitInstanceAvailable instanceId with
    | Except.error e =>
        ([Call.waitInstanceAvailable instanceId],
         some ("Error waiting for Neptune instance to become available",
               "Could not confirm Neptune instance " ++ instanceId
                 ++ " availability: " ++ e))
    | Except.ok _ =>
        let r := neptuneWaitAll env rest
        (Call.waitInstanceAvailable instanceId :: r.1, r.2)

/-- Embedding of `NeptuneRebootResource.Create`: resolve config, describe the cluster,
NotFound on an empty describe result, reject an empty member list
("No instances in cluster"), reboot every member, then wait on every member
sequentially, and only then record `time.Now()` as `last_reboot_time`. -/
def neptuneRebootCreate (env : NeptuneEnv) (data : NeptuneRebootResourceModel)
    (now : String) : List Call × Outcome :=
  match resolveConfig env.loadConfigWithRegion data.region with
  | Except.error e =>
      ([], Outcome.failure "Unable to load AWS SDK config"
        ("Unable to load AWS SDK config with region "
          ++ (data.region.getD "") ++ ": " ++ e))
  | Except.ok _ =>
    match env.describeDBClusters data.clusterIdentifier with
    | Except.error e =>
        ([Call.describeClusters data.clusterIdentifier],
         Outcome.failure "Error describing Neptune cluster"
           ("Could not describe Neptune cluster: " ++ e))
    | Except.ok [] =>
        ([Call.describeClusters data.clusterIdentifier],
         Outcome.failure "Neptune cluster not found"
           ("Neptune cluster " ++ data.clusterIdentifier ++ " not found"))
    | Except.ok (cluster :: _) =>
      let instances := cluster.dbClusterMembers
      if instances = [] then
        ([Call.describeClusters data.clusterIdentifier],
         Outcome.failure "No instances in cluster"
           ("Neptune cluster " ++ data.clusterIdentifier
             ++ " has no instances to reboot"))
      else
        match neptuneRebootFanOut env instances with
        | (calls, some (title, detail)) =>
            (Call.describeClusters data.clusterIdentifier :: calls,
             Outcome.failure title detail)
        | (calls, none) =>
          match neptuneWaitAll env instances with
          | (waits, some (title, detail)) =>
              (Call.describeClusters data.clusterIdentifier :: calls ++ waits,
               Outcome.failure title detail)
          | (waits, none) =>
              (Call.describeClusters data.clusterIdentifier :: calls ++ waits,
               Outcome.success now)

/-- Embedding of `NeptuneRebootResource.Update`: identical to `Create` except that the
empty-member-list rejection is absent — an empty member list simply makes
both loops vacuous and the method records a fresh timestamp. -/
def neptuneRebootUpdate (env : NeptuneEnv) (data : NeptuneRebootResourceModel)
    (now : String) : List Call × Outcome :=
  match resolveConfig env.loadConfigWithRegion data.region with
  | Except.error e =>
      ([], Outcome.failure "Unable to load AWS SDK config"
        ("Unable to load AWS SDK config with region "
          ++ (data.region.getD "") ++ ": " ++ e))
  | Except.ok _ =>
    match env.describeDBClusters data.clusterIdentifier with
    | Except.error e =>
        ([Call.describeClusters data.clusterIdentifier],
         Outcome.failure "Error describing Neptune cluster"
           ("Could not describe Neptune cluster: " ++ e))
    | Except.ok [] =>
        ([Call.describeClusters data.clusterIdentifier],
         Outcome.failure "Neptune cluster not found"
           ("Neptune cluster " ++ data.clusterIdentifier ++ " not found"))
    | Except.ok (cluster :: _) =>
      match neptuneRebootFanOut env cluster.dbClusterMembers with
      | (calls, some (title, detail)) =>
          (Call.describeClusters data.clusterIdentifier :: calls,
           Outcome.failure title detail)
      | (calls, none) =>
        match neptuneWaitAll env cluster.dbClusterMembers with
        | (waits, some (title, detail)) =>
            (Call.describeClusters data.clusterIdentifier :: calls ++ waits,
             Outcome.failure title detail)
        | (waits, none) =>
            (Call.describeClusters data.clusterIdentifier :: calls ++ waits,
             Outcome.success now)

/-! ## Neptune modify resource and its manual polling loop -/

/-- Model of `neptune.ModifyDBClusterInput` as the provider builds it: optional
fields are set only when the corresponding attribute is non-null. -/
structure ModifyDBClusterInput where
  dbClusterIdentifier : String
  dbClusterParameterGroupName : Option String
  enableLogTypes : Option (List String)
  applyImmediately : Option Bool
  deriving DecidableEq, Repr

/-- The AWS responses visible to `NeptuneModifyResource`.  The describe
response is indexed by the poll attempt number, modelling that the cluster's
reported status can change between the 30-second poll intervals. -/
structure NeptuneModifyEnv where
  loadConfigWithRegion : String → Except String Unit
  modifyDBCluster : ModifyDBClusterInput → Except String Unit
  describeDBClusters : Nat → Except String (List DBCluster)

/-- The plan data of `neptune_modify` (`NeptuneModifyResourceModel`). -/
structure NeptuneModifyResourceModel where
  clusterIdentifier : String
  region : Option String
  clusterParameterGroupName : Option String
  cloudwatchLogsExports : Option (List String)
  applyImmediately : Option Bool
  deriving DecidableEq, Repr

/-- The loop's availability test:
`len(result.DBClusters) > 0 && *result.DBClusters[0].Status == "available"`. -/
def clusterAvailable : List DBCluster → Bool
  | [] => false
  | cluster :: _ => cluster.status == "available"

/-- How one run of the manual polling loop ends. -/
inductive PollResult where
  /-- The status was observed `available` at this 0-based attempt and the
  loop broke out immediately. -/
  | became (attempt : Nat)
  /-- The describe call itself errored at this attempt; immediate failure. -/
  | describeFailed (attempt : Nat) (e : String)
  /-- The final attempt (`i == maxAttempts-1`) passed without success:
  "Neptune cluster did not become available within 30 minutes". -/
  | timedOut
  /-- The `for` bound was exhausted without the final-attempt check firing
  (reachable only when `maxAttempts = 0`; control then falls through). -/
  | ranOut
  deriving DecidableEq, Repr

/-- The loop `for i := 0; i < maxAttempts; i++ { describe; err → fail; available →
break; i == maxAttempts-1 → timeout; sleep 30s }`, unrolled structurally on
the number of remaining iterations.  Returns the list of attempt indices at
which a describe call was actually issued, and how the loop ended. -/
def pollLoopAux (describe : Nat → Except String (List DBCluster))
    (maxAttempts : Nat) : Nat → Nat → List Nat × PollResult
  | _, 0 => ([], PollResult.ranOut)
  | i, fuel + 1 =>
    match describe i with
    | Except.error e => ([i], PollResult.describeFailed i e)
    | Except.ok clusters =>
      if clusterAvailable clusters then ([i], PollResult.became i)
      else if i = maxAttempts - 1 then ([i], PollResult.timedOut)
      else
        let r := pollLoopAux describe maxAttempts (i + 1) fuel
        (i :: r.1, r.2)

/-- The manual polling loop of `NeptuneModifyResource.Create`/`Update`,
started at attempt 0 with its full iteration budget. -/
def pollLoop (describe : Nat → Except String (List DBCluster))
    (maxAttempts : Nat) : List Nat × PollResult :=
  pollLoopAux describe maxAttempts 0 maxAttempts

/-- The constant `maxAttempts := 60 // 30 minutes with 30 second intervals`. -/
def neptuneModifyMaxAttempts : Nat := 60

/-- The `ModifyDBClusterInput` built by `NeptuneModifyResource.Create` and
`Update`: each optional attribute is copied only when non-null. -/
def neptuneModifyInput (data : NeptuneModifyResourceModel) : ModifyDBClusterInput :=
  { dbClusterIdentifier := data.clusterIdentifier
    dbClusterParameterGroupName := data.clusterParameterGroupName
    enableLogTypes := data.cloudwatchLogsExports
    applyImmediately := data.applyImmediately }

/-- Embedding of `NeptuneModifyResource.Create` (the `Update` method repeats the same
orchestration): resolve config, build the modify input, call
`ModifyDBCluster`, then run the 60-attempt manual polling loop; only when
the loop exits without a diagnostic is `time.Now()` recorded as
`last_modified_time`. -/
def neptuneModifyCreate (env : NeptuneModifyEnv)
    (data : NeptuneModifyResourceModel) (now : String) : List Call × Outcome :=
  match resolveConfig env.loadConfigWithRegion data.region with
  | Except.error e =>
      ([], Outcome.failure "Unable to load AWS SDK config"
        ("Unable to load AWS SDK config with region "
          ++ (data.region.getD "") ++ ": " ++ e))
  | Except.ok _ =>
    match env.modifyDBCluster (neptuneModifyInput data) with
    | Except.error e =>
        ([Call.modifyCluster data.clusterIdentifier],
         Outcome.failure "Error modifying Neptune cluster"
           ("Could not modify Neptune cluster: " ++ e))
    | Except.ok _ =>
      let r := pollLoop env.describeDBClusters neptuneModifyMaxAttempts
      let calls := Call.modifyCluster data.clusterIdentifier
        :: r.1.map (fun _ => Call.describeClusters data.clusterIdentifier)
      match r.2 with
      | PollResult.describeFailed _ e =>
          (calls, Outcome.failure "Error describing Neptune cluster"
            ("Could not describe Neptune cluster: " ++ e))
      | PollResult.timedOut =>
          (calls, Outcome.failure "Timeout waiting for Neptune cluster"
            "Neptune cluster did not become available within 30 minutes")
      | PollResult.became _ => (calls, Outcome.success now)
      | PollResult.ranOut => (calls, Outcome.success now)

/-! ## Concrete sample fixtures

Concrete environments used to evaluate the embedded methods at explicit
inputs: a two-member Aurora cluster (writer `db-1-a`, reader `db-1-b`), a
member-less Aurora cluster `db-empty`, and Neptune counterparts.  All calls
succeed unless stated otherwise. -/

def sampleWriter : DBClusterMember := ⟨"db-1-a", true⟩

def sampleReader : DBClusterMember := ⟨"db-1-b", false⟩

def sampleCluster : DBCluster := ⟨[sampleWriter, sampleReader], "available"⟩

def sampleAuroraEnv : AuroraEnv :=
  { loadConfigWithRegion := fun _ => Except.ok ()
    describeDBClusters := fun _ => Except.ok [sampleCluster]
    rebootDBInstance := fun _ => Except.ok ()
    failoverDBCluster := fun _ _ => Except.ok ()
    waitClusterAvailable := fun _ => Except.ok () }

/-- Plan data of `aurora_reboot` with `force_failover = true`. -/
def sampleAuroraData : AuroraRebootResourceModel := ⟨"db-1", none, some true⟩

/-- Plan data of `aurora_reboot` with `force_failover` unset. -/
def sampleAuroraDataNoFF : AuroraRebootResourceModel := ⟨"db-1", none, none⟩

/-- Plan data of `aurora_reboot` with `force_failover = false`. -/
def sampleAuroraDataFFFalse : AuroraRebootResourceModel :=
  ⟨"db-1", none, some false⟩

/-- A described Aurora cluster that exists but has zero members. -/
def emptyMembersCluster : DBCluster := ⟨[], "available"⟩

def emptyAuroraEnv : AuroraEnv :=
  { loadConfigWithRegion := fun _ => Except.ok ()
    describeDBClusters := fun _ => Except.ok [emptyMembersCluster]
    rebootDBInstance := fun _ => Except.ok ()
    failoverDBCluster := fun _ _ => Except.ok ()
    waitClusterAvailable := fun _ => Except.ok () }

def emptyAuroraData : AuroraRebootResourceModel := ⟨"db-empty", none, none⟩

/-- An Aurora environment whose describe call reports the cluster absent. -/
def absentAuroraEnv : AuroraEnv :=
  { loadConfigWithRegion := fun _ => Except.ok ()
    describeDBClusters := fun _ => Except.error "DBClusterNotFoundFault"
    rebootDBInstance := fun _ => Except.ok ()
    failoverDBCluster := fun _ _ => Except.ok ()
    waitClusterAvailable := fun _ => Except.ok () }

/-- An Aurora environment whose describe call returns no clusters. -/
def notFoundAuroraEnv : AuroraEnv :=
  { loadConfigWithRegion := fun _ => Except.ok ()
    describeDBClusters := fun _ => Except.ok []
    rebootDBInstance := fun _ => Except.ok ()
    failoverDBCluster := fun _ _ => Except.ok ()
    waitClusterAvailable := fun _ => Except.ok () }

/-- An Aurora environment where rebooting the second sample member fails. -/
def failSecondRebootAuroraEnv : AuroraEnv :=
  { loadConfigWithRegion := fun _ => Except.ok ()
    describeDBClusters := fun _ => Except.ok [sampleCluster]
    rebootDBInstance := fun inp =>
      if inp.dbInstanceIdentifier = "db-1-b" then Except.error "throttled"
      else Except.ok ()
    failoverDBCluster := fun _ _ => Except.ok ()
    waitClusterAvailable := fun _ => Except.ok () }

/-- A described Aurora cluster with a single (writer) member. -/
def singleMemberCluster : DBCluster := ⟨[⟨"db-1-solo", true⟩], "available"⟩

def singleMemberAuroraEnv : AuroraEnv :=
  { loadConfigWithRegion := fun _ => Except.ok ()
    describeDBClusters := fun _ => Except.ok [singleMemberCluster]
    rebootDBInstance := fun _ => Except.ok ()
    failoverDBCluster := fun _ _ => Except.ok ()
    waitClusterAvailable := fun _ => Except.ok () }

def sampleNeptuneMemberA : DBClusterMember := ⟨"nep-1-a", true⟩

def sampleNeptuneMemberB : DBClusterMember := ⟨"nep-1-b", false⟩

def sampleNeptuneCluster : DBCluster :=
  ⟨[sampleNeptuneMemberA, sampleNeptuneMemberB], "available"⟩

def sampleNeptuneEnv : NeptuneEnv :=
  { loadConfigWithRegion := fun _ => Except.ok ()
    describeDBClusters := fun _ => Except.ok [sampleNeptuneCluster]
    rebootDBInstance := fun _ => Except.ok ()
    waitInstanceAvailable := fun _ => Except.ok () }

/-- A Neptune environment whose describe call returns no clusters. -/
def notFoundNeptuneEnv : NeptuneEnv :=
  { loadConfigWithRegion := fun _ => Except.ok ()
    describeDBClusters := fun _ => Except.ok []
    rebootDBInstance := fun _ => Except.ok ()
    waitInstanceAvailable := fun _ => Except.ok () }

/-- A Neptune environment reporting an existing but member-less cluster. -/
def emptyNeptuneEnv : NeptuneEnv :=
  { loadConfigWithRegion := fun _ => Except.ok ()
    describeDBClusters := fun _ => Except.ok [emptyMembersCluster]
    rebootDBInstance := fun _ => Except.ok ()
    waitInstanceAvailable := fun _ => Except.ok () }

/-- A Neptune environment where the wait on the second member fails. -/
def failSecondWaitNeptuneEnv : NeptuneEnv :=
  { loadConfigWithRegion := fun _ => Except.ok ()
    describeDBClusters := fun _ => Except.ok [sampleNeptuneCluster]
    rebootDBInstance := fun _ => Except.ok ()
    waitInstanceAvailable := fun iid =>
      if iid = "nep-1-b" then Except.error "exceeded wait budget" else Except.ok () }

/-- A Neptune environment where rebooting the second member fails. -/
def failSecondRebootNeptuneEnv : NeptuneEnv :=
  { loadConfigWithRegion := fun _ => Except.ok ()
    describeDBClusters := fun _ => Except.ok [sampleNeptuneCluster]
    rebootDBInstance := fun iid =>
      if iid = "nep-1-b" then Except.error "throttled" else Except.ok ()
    waitInstanceAvailable := fun _ => Except.ok () }

def sampleNeptuneData : NeptuneRebootResourceModel := ⟨"nep-1", none⟩

/-- A describe sequence that never reports `available`. -/
def neverAvailableDescribe : Nat → Except String (List DBCluster) :=
  fun _ => Except.ok [⟨[], "modifying"⟩]

/-- A describe sequence that first reports `available` at attempt 2. -/
def availableAtTwoDescribe : Nat → Except String (List DBCluster) :=
  fun i => if 2 ≤ i then Except.ok [⟨[], "available"⟩]
           else Except.ok [⟨[], "modifying"⟩]

/-- A Neptune modify environment that polls forever without success. -/
def timeoutNeptuneModifyEnv : NeptuneModifyEnv :=
  { loadConfigWithRegion := fun _ => Except.ok ()
    modifyDBCluster := fun _ => Except.ok ()
    describeDBClusters := neverAvailableDescribe }

/-- A Neptune modify environment that converges at poll attempt 2. -/
def convergingNeptuneModifyEnv : NeptuneModifyEnv :=
  { loadConfigWithRegion := fun _ => Except.ok ()
    modifyDBCluster := fun _ => Except.ok ()
    describeDBClusters := availableAtTwoDescribe }

def sampleNeptuneModifyData : NeptuneModifyResourceModel :=
  ⟨"nep-1", none, some "custom-params", none, some true⟩

/-! ## Helper lemmas about the traces and loops -/

theorem resolveConfig_ok (load : String → Except String Unit)
    (region : Option String)
    (h : ∀ reg, region = some reg → load reg = Except.ok ()) :
    resolveConfig load region = Except.ok () := by
  cases hr : region with
  | none => rfl
  | some reg => simpa [resolveConfig] using h reg hr

theorem rebootCallsOf_cons (c : Call) (tr : List Call) :
    rebootCallsOf (c :: tr) =
      (rebootCallOf c).toList ++ rebootCallsOf tr := by
  simp [rebootCallsOf, List.filterMap_cons]
  cases c <;> simp [rebootCallOf]

theorem failoverCallsOf_cons (c : Call) (tr : List Call) :
    failoverCallsOf (c :: tr) =
      (failoverCallOf c).toList ++ failoverCallsOf tr := by
  simp [failoverCallsOf, List.filterMap_cons]
  cases c <;> simp [failoverCallOf]

theorem instanceWaitsOf_cons (c : Call) (tr : List Call) :
    instanceWaitsOf (c :: tr) =
      (instanceWaitOf c).toList ++ instanceWaitsOf tr := by
  simp [instanceWaitsOf, List.filterMap_cons]
  cases c <;> simp [instanceWaitOf]

theorem clusterWaitsOf_cons (c : Call) (tr : List Call) :
    clusterWaitsOf (c :: tr) =
      (clusterWaitOf c).toList ++ clusterWaitsOf tr := by
  simp [clusterWaitsOf, List.filterMap_cons]
  cases c <;> simp [clusterWaitOf]

theorem rebootCallsOf_nil : rebootCallsOf [] = [] := rfl

theorem failoverCallsOf_nil : failoverCallsOf [] = [] := rfl

theorem instanceWaitsOf_nil : instanceWaitsOf [] = [] := rfl

theorem clusterWaitsOf_nil : clusterWaitsOf [] = [] := rfl

theorem rebootCallsOf_append (a b : List Call) :
    rebootCallsOf (a ++ b) = rebootCallsOf a ++ rebootCallsOf b := by
  simp [rebootCallsOf, List.filterMap_append]

theorem failoverCallsOf_append (a b : List Call) :
    failoverCallsOf (a ++ b) = failoverCallsOf a ++ failoverCallsOf b := by
  simp [failoverCallsOf, List.filterMap_append]

theorem instanceWaitsOf_append (a b : List Call) :
    instanceWaitsOf (a ++ b) = instanceWaitsOf a ++ instanceWaitsOf b := by
  simp [instanceWaitsOf, List.filterMap_append]

theorem clusterWaitsOf_append (a b : List Call) :
    clusterWaitsOf (a ++ b) = clusterWaitsOf a ++ clusterWaitsOf b := by
  simp [clusterWaitsOf, List.filterMap_append]

theorem rebootCallsOf_map_reboot {α : Type} (f : α → RebootDBInstanceInput)
    (l : List α) :
    rebootCallsOf (l.map (fun x => Call.rebootInstance (f x))) = l.map f := by
  induction l with
  | nil => rfl
  | cons x xs ih =>
      simp only [List.map_cons, rebootCallsOf, List.filterMap_cons] at ih ⊢
      simp [rebootCallOf, ih]

theorem failoverCallsOf_map_reboot {α : Type} (f : α → RebootDBInstanceInput)
    (l : List α) :
    failoverCallsOf (l.map (fun x => Call.rebootInstance (f x))) = [] := by
  induction l with
  | nil => rfl
  | cons x xs ih =>
      simp only [List.map_cons, failoverCallsOf, List.filterMap_cons] at ih ⊢
      simp [failoverCallOf, ih]

theorem instanceWaitsOf_map_reboot {α : Type} (f : α → RebootDBInstanceInput)
    (l : List α) :
    instanceWaitsOf (l.map (fun x => Call.rebootInstance (f x))) = [] := by
  induction l with
  | nil => rfl
  | cons x xs ih =>
      simp only [List.map_cons, instanceWaitsOf, List.filterMap_cons] at ih ⊢
      simp [instanceWaitOf, ih]

theorem clusterWaitsOf_map_reboot {α : Type} (f : α → RebootDBInstanceInput)
    (l : List α) :
    clusterWaitsOf (l.map (fun x => Call.rebootInstance (f x))) = [] := by
  induction l with
  | nil => rfl
  | cons x xs ih =>
      simp only [List.map_cons, clusterWaitsOf, List.filterMap_cons] at ih ⊢
      simp [clusterWaitOf, ih]

theorem instanceWaitsOf_map_wait {α : Type} (f : α → String) (l : List α) :
    instanceWaitsOf (l.map (fun x => Call.waitInstanceAvailable (f x))) = l.map f := by
  induction l with
  | nil => rfl
  | cons x xs ih =>
      simp only [List.map_cons, instanceWaitsOf, List.filterMap_cons] at ih ⊢
      simp [instanceWaitOf, ih]

/-- Aurora fan-out where every per-instance reboot succeeds: one reboot call
per member, in list order, and no diagnostic. -/
theorem auroraRebootFanOut_ok (env : AuroraEnv) (n : Nat) (ff : Option Bool)
    (ms : List DBClusterMember)
    (h : ∀ m ∈ ms, env.rebootDBInstance (auroraRebootInput n ff m) = Except.ok ()) :
    auroraRebootFanOut env n ff ms =
      (ms.map (fun m => Call.rebootInstance (auroraRebootInput n ff m)), none) := by
  induction ms with
  | nil => rfl
  | cons m rest ih =>
      have hm := h m (by simp)
      have hr := ih (fun x hx => h x (by simp [hx]))
      simp [auroraRebootFanOut, hm, hr]

/-- Aurora fan-out where the reboot of `bad` is the first to error: the
members before `bad` and `bad` itself are rebooted (in order), the members
after `bad` are not, and the diagnostic names `bad` and the error. -/
theorem auroraRebootFanOut_err (env : AuroraEnv) (n : Nat) (ff : Option Bool)
    (pre : List DBClusterMember) (bad : DBClusterMember)
    (rest : List DBClusterMember) (e : String)
    (hpre : ∀ m ∈ pre, env.rebootDBInstance (auroraRebootInput n ff m) = Except.ok ())
    (hbad : env.rebootDBInstance (auroraRebootInput n ff bad) = Except.error e) :
    auroraRebootFanOut env n ff (pre ++ bad :: rest) =
      ((pre ++ [bad]).map (fun m => Call.rebootInstance (auroraRebootInput n ff m)),
       some ("Error rebooting Aurora instance",
             "Could not reboot Aurora instance " ++ bad.dbInstanceIdentifier
               ++ ": " ++ e)) := by
  induction pre with
  | nil => simp [auroraRebootFanOut, hbad]
  | cons m pre ih =>
      have hm := hpre m (by simp)
      have hr := ih (fun x hx => hpre x (by simp [hx]))
      simp [auroraRebootFanOut, hm, hr]

/-- Neptune fan-out where every per-instance reboot succeeds. -/
theorem neptuneRebootFanOut_ok (env : NeptuneEnv) (ms : List DBClusterMember)
    (h : ∀ m ∈ ms, env.rebootDBInstance m.dbInstanceIdentifier = Except.ok ()) :
    neptuneRebootFanOut env ms =
      (ms.map (fun m => Call.rebootInstance ⟨m.dbInstanceIdentifier, none⟩), none) := by
  induction ms with
  | nil => rfl
  | cons m rest ih =>
      have hm := h m (by simp)
      have hr := ih (fun x hx => h x (by simp [hx]))
      simp [neptuneRebootFanOut, hm, hr]

/-- Neptune fan-out where the reboot of `bad` is the first to error. -/
theorem neptuneRebootFanOut_err (env : NeptuneEnv)
    (pre : List DBClusterMember) (bad : DBClusterMember)
    (rest : List DBClusterMember) (e : String)
    (hpre : ∀ m ∈ pre, env.rebootDBInstance m.dbInstanceIdentifier = Except.ok ())
    (hbad : env.rebootDBInstance bad.dbInstanceIdentifier = Except.error e) :
    neptuneRebootFanOut env (pre ++ bad :: rest) =
      ((pre ++ [bad]).map (fun m => Call.rebootInstance ⟨m.dbInstanceIdentifier, none⟩),
       some ("Error rebooting Neptune instance",
             "Could not reboot Neptune instance " ++ bad.dbInstanceIdentifier
               ++ ": " ++ e)) := by
  induction pre with
  | nil => simp [neptuneRebootFanOut, hbad]
  | cons m pre ih =>
      have hm := hpre m (by simp)
      have hr := ih (fun x hx => hpre x (by simp [hx]))
      simp [neptuneRebootFanOut, hm, hr]

/-- Neptune wait loop where every per-instance wait succeeds: one wait per
member, in list order. -/
theorem neptuneWaitAll_ok (env : NeptuneEnv) (ms : List DBClusterMember)
    (h : ∀ m ∈ ms, env.waitInstanceAvailable m.dbInstanceIdentifier = Except.ok ()) :
    neptuneWaitAll env ms =
      (ms.map (fun m => Call.waitInstanceAvailable m.dbInstanceIdentifier), none) := by
  induction ms with
  | nil => rfl
  | cons m rest ih =>
      have hm := h m (by simp)
      have hr := ih (fun x hx => h x (by simp [hx]))
      simp [neptuneWaitAll, hm, hr]

/-- Neptune wait loop where the wait on `bad` is the first to fail: `bad`
and the members before it are waited on (in order), the members after it are
left unwatched, and the loop stops with the wait diagnostic. -/
theorem neptuneWaitAll_err (env : NeptuneEnv)
    (pre : List DBClusterMember) (bad : DBClusterMember)
    (rest : List DBClusterMember) (e : String)
    (hpre : ∀ m ∈ pre, env.waitInstanceAvailable m.dbInstanceIdentifier = Except.ok ())
    (hbad : env.waitInstanceAvailable bad.dbInstanceIdentifier = Except.error e) :
    neptuneWaitAll env (pre ++ bad :: rest) =
      ((pre ++ [bad]).map (fun m => Call.waitInstanceAvailable m.dbInstanceIdentifier),
       some ("Error waiting for Neptune instance to become available",
             "Could not confirm Neptune instance " ++ bad.dbInstanceIdentifier
               ++ " availability: " ++ e)) := by
  induction pre with
  | nil => simp [neptuneWaitAll, hbad]
  | cons m pre ih =>
      have hm := hpre m (by simp)
      have hr := ih (fun x hx => hpre x (by simp [hx]))
      simp [neptuneWaitAll, hm, hr]

/-- If no attempt from `i` to the end observes an error or `available`, the
poll loop issues a describe at every remaining attempt and ends timed out. -/
theorem pollLoopAux_timedOut
    (describe : Nat → Except String (List DBCluster)) (maxAttempts : Nat) :
    ∀ fuel i, i + fuel = maxAttempts → 1 ≤ fuel →
    (∀ k, i ≤ k → k < maxAttempts →
      ∃ cs, describe k = Except.ok cs ∧ clusterAvailable cs = false) →
    pollLoopAux describe maxAttempts i fuel =
      (List.range' i fuel, PollResult.timedOut) := by
  intro fuel
  induction fuel with
  | zero => omega
  | succ fuel ih =>
      intro i hsum _ h
      obtain ⟨cs, hok, hna⟩ := h i (le_refl i) (by omega)
      rcases Nat.eq_zero_or_pos fuel with hf | hf
      · subst hf
        have hlast : i = maxAttempts - 1 := by omega
        subst hlast
        simp [pollLoopAux, hok, hna]
      · have hne : ¬ i = maxAttempts - 1 := by omega
        have hr := ih (i + 1) (by omega) hf
          (fun k hk1 hk2 => h k (by omega) hk2)
        simp [pollLoopAux, hok, hna, hne, hr, List.range'_succ]

/-- If attempt `j` is the first to observe `available` (all earlier attempts
describe successfully and see a non-available status), the loop issues
describes at attempts `i, …, j` only and breaks out at `j`. -/
theorem pollLoopAux_became
    (describe : Nat → Except String (List DBCluster)) (maxAttempts : Nat) :
    ∀ fuel i j, i + fuel = maxAttempts → i ≤ j → j < maxAttempts →
    (∀ k, i ≤ k → k < j →
      ∃ cs, describe k = Except.ok cs ∧ clusterAvailable cs = false) →
    (∃ cs, describe j = Except.ok cs ∧ clusterAvailable cs = true) →
    pollLoopAux describe maxAttempts i fuel =
      (List.range' i (j + 1 - i), PollResult.became j) := by
  intro fuel
  induction fuel with
  | zero => omega
  | succ fuel ih =>
      intro i j hsum hij hj h hj2
      rcases Nat.eq_or_lt_of_le hij with heq | hlt
      · subst heq
        obtain ⟨cs, hok, hav⟩ := hj2
        simp [pollLoopAux, hok, hav]
      · obtain ⟨cs, hok, hna⟩ := h i (le_refl i) hlt
        have hne : ¬ i = maxAttempts - 1 := by omega
        have hr := ih (i + 1) j (by omega) (by omega) hj
          (fun k hk1 hk2 => h k (by omega) hk2) hj2
        have harith : j + 1 - i = (j + 1 - (i + 1)) + 1 := by omega
        rw [harith, List.range'_succ]
        simp [pollLoopAux, hok, hna, hne, hr]

/-- With a positive iteration budget the loop never falls through the `for`
bound: it always ends in `became`, `describeFailed` or `timedOut`. -/
theorem pollLoopAux_ne_ranOut
    (describe : Nat → Except String (List DBCluster)) (maxAttempts : Nat) :
    ∀ fuel i, i + fuel = maxAttempts → 1 ≤ fuel →
    (pollLoopAux describe maxAttempts i fuel).2 ≠ PollResult.ranOut := by
  intro fuel
  induction fuel with
  | zero => omega
  | succ fuel ih =>
      intro i hsum _
      rcases hd : describe i with e | cs
      · simp [pollLoopAux, hd]
      · rcases hav : clusterAvailable cs with _ | _
        · rcases Nat.eq_zero_or_pos fuel with hf | hf
          · subst hf
            have hlast : i = maxAttempts - 1 := by omega
            subst hlast
            simp [pollLoopAux, hd, hav]
          · by_cases hne : i = maxAttempts - 1
            · subst hne
              simp [pollLoopAux, hd, hav]
            · have hr := ih (i + 1) (by omega) hf
              simp [pollLoopAux, hd, hav, hne, hr]
        · simp [pollLoopAux, hd, hav]

/-- The Aurora fan-out issues only reboot calls: no waits of either kind. -/
theorem auroraRebootFanOut_no_waits (env : AuroraEnv) (n : Nat)
    (ff : Option Bool) (ms : List DBClusterMember) :
    instanceWaitsOf (auroraRebootFanOut env n ff ms).1 = []
      ∧ clusterWaitsOf (auroraRebootFanOut env n ff ms).1 = [] := by
  induction ms with
  | nil => exact ⟨rfl, rfl⟩
  | cons m rest ih =>
      rcases hb : env.rebootDBInstance (auroraRebootInput n ff m) with e | u <;>
        simp [auroraRebootFanOut, hb, instanceWaitsOf_cons, clusterWaitsOf_cons,
          instanceWaitsOf_nil, clusterWaitsOf_nil, instanceWaitOf,
          clusterWaitOf, ih]

/-- The Aurora strategy step issues only mutation calls: no waits. -/
theorem auroraRebootMutation_no_waits (env : AuroraEnv)
    (data : AuroraRebootResourceModel) (cluster : DBCluster) :
    instanceWaitsOf (auroraRebootMutation env data cluster).1 = []
      ∧ clusterWaitsOf (auroraRebootMutation env data cluster).1 = [] := by
  unfold auroraRebootMutation
  rcases hr : auroraFindReader cluster.dbClusterMembers with _ | r
  · exact auroraRebootFanOut_no_waits env _ _ _
  · by_cases hc : 2 ≤ cluster.dbClusterMembers.length
        ∧ data.forceFailover = some true
    · rcases hf : env.failoverDBCluster data.clusterIdentifier
          r.dbInstanceIdentifier with e | u <;>
        simp [hc, hf, instanceWaitsOf_cons, clusterWaitsOf_cons,
          instanceWaitsOf_nil, clusterWaitsOf_nil, instanceWaitOf, clusterWaitOf]
    · simpa [hc] using auroraRebootFanOut_no_waits env _ _ _

/-- When every reboot and the failover call succeed, the Aurora strategy
step itself reports no diagnostic. -/
theorem auroraRebootMutation_ok (env : AuroraEnv)
    (data : AuroraRebootResourceModel) (cluster : DBCluster)
    (hboots : ∀ inp, env.rebootDBInstance inp = Except.ok ())
    (hfo : ∀ c t, env.failoverDBCluster c t = Except.ok ()) :
    (auroraRebootMutation env data cluster).2 = none := by
  unfold auroraRebootMutation
  have hfan := auroraRebootFanOut_ok env cluster.dbClusterMembers.length
    data.forceFailover cluster.dbClusterMembers (fun m _ => hboots _)
  rcases hr : auroraFindReader cluster.dbClusterMembers with _ | r
  · simp [hfan]
  · by_cases hc : 2 ≤ cluster.dbClusterMembers.length
        ∧ data.forceFailover = some true
    · simp [hc, hfo]
    · simp [hc, hfan]

/-- A string with a non-empty left part is non-empty. -/
theorem append_left_ne_empty (s t : String) (h : s ≠ "") : s ++ t ≠ "" := by
  intro hc
  apply h
  have hd : s.data ++ t.data = [] := by
    simpa [String.data_append] using congrArg String.data hc
  have hs : s.data = [] := (List.append_eq_nil.mp hd).1
  apply String.ext
  rw [hs]

/-- Every diagnostic the Aurora fan-out can produce has a non-empty detail. -/
theorem auroraRebootFanOut_failure_detail (env : AuroraEnv) (n : Nat)
    (ff : Option Bool) (ms : List DBClusterMember) (title detail : String)
    (h : (auroraRebootFanOut env n ff ms).2 = some (title, detail)) :
    detail ≠ "" := by
  induction ms with
  | nil => simp [auroraRebootFanOut] at h
  | cons m rest ih =>
      rcases hb : env.rebootDBInstance (auroraRebootInput n ff m) with e | u
      · simp [auroraRebootFanOut, hb] at h
        rw [← h.2]
        exact append_left_ne_empty _ _ (append_left_ne_empty _ _
          (append_left_ne_empty _ _ (by decide)))
      · simp [auroraRebootFanOut, hb] at h
        exact ih h

/-- Every diagnostic the Aurora strategy step can produce has a non-empty
detail. -/
theorem auroraRebootMutation_failure_detail (env : AuroraEnv)
    (data : AuroraRebootResourceModel) (cluster : DBCluster)
    (title detail : String)
    (h : (auroraRebootMutation env data cluster).2 = some (title, detail)) :
    detail ≠ "" := by
  unfold auroraRebootMutation at h
  rcases hr : auroraFindReader cluster.dbClusterMembers with _ | r <;>
    rw [hr] at h
  · exact auroraRebootFanOut_failure_detail env _ _ _ _ _ h
  · by_cases hc : 2 ≤ cluster.dbClusterMembers.length
        ∧ data.forceFailover = some true
    · rcases hf : env.failoverDBCluster data.clusterIdentifier
          r.dbInstanceIdentifier with e | u <;>
        simp [hc, hf] at h
      rw [← h.2]
      exact append_left_ne_empty _ _ (by decide)
    · simp only [if_neg hc] at h
      exact auroraRebootFanOut_failure_detail env _ _ _ _ _ h

/-- Every reboot call in the Aurora fan-out trace is the per-member input
built for one of the fanned-out members. -/
theorem auroraRebootFanOut_calls_shape (env : AuroraEnv) (n : Nat)
    (ff : Option Bool) (ms : List DBClusterMember) :
    ∀ inp ∈ rebootCallsOf (auroraRebootFanOut env n ff ms).1,
      ∃ m ∈ ms, inp = auroraRebootInput n ff m := by
  induction ms with
  | nil => intro inp hin; simp [auroraRebootFanOut, rebootCallsOf_nil] at hin
  | cons m rest ih =>
      intro inp hin
      rcases hb : env.rebootDBInstance (auroraRebootInput n ff m) with e | u <;>
        simp only [auroraRebootFanOut, hb] at hin
      · simp [rebootCallsOf_cons, rebootCallsOf_nil, rebootCallOf] at hin
        exact ⟨m, by simp, hin⟩
      · rw [rebootCallsOf_cons] at hin
        simp only [rebootCallOf, Option.toList_some, List.mem_append,
          List.mem_singleton] at hin
        rcases hin with h | h
        · exact ⟨m, by simp, h⟩
        · obtain ⟨m2, hm2, heq⟩ := ih inp h
          exact ⟨m2, by simp [hm2], heq⟩

/-- Every reboot call issued by the Aurora strategy step is the per-member
input built for one of the cluster's members. -/
theorem auroraRebootMutation_calls_shape (env : AuroraEnv)
    (data : AuroraRebootResourceModel) (cluster : DBCluster) :
    ∀ inp ∈ rebootCallsOf (auroraRebootMutation env data cluster).1,
      ∃ m ∈ cluster.dbClusterMembers,
        inp = auroraRebootInput cluster.dbClusterMembers.length
          data.forceFailover m := by
  unfold auroraRebootMutation
  rcases hr : auroraFindReader cluster.dbClusterMembers with _ | r
  · exact auroraRebootFanOut_calls_shape env _ _ _
  · by_cases hc : 2 ≤ cluster.dbClusterMembers.length
        ∧ data.forceFailover = some true
    · rcases hf : env.failoverDBCluster data.clusterIdentifier
          r.dbInstanceIdentifier with e | u <;>
        simp only [if_pos hc, hf] <;>
        intro inp hin <;>
        simp [rebootCallsOf_cons, rebootCallsOf_nil, rebootCallOf] at hin
    · simp only [if_neg hc]
      exact auroraRebootFanOut_calls_shape env _ _ _

/-- The reboot calls of a full Aurora reboot run are exactly those of its
strategy step (the describe and wait calls contribute none). -/
theorem auroraRebootCreate_rebootCalls (env : AuroraEnv)
    (data : AuroraRebootResourceModel) (now : String)
    (cluster : DBCluster) (crest : List DBCluster)
    (hcfg : resolveConfig env.loadConfigWithRegion data.region = Except.ok ())
    (hdesc : env.describeDBClusters data.clusterIdentifier =
      Except.ok (cluster :: crest)) :
    rebootCallsOf (auroraRebootCreate env data now).1 =
      rebootCallsOf (auroraRebootMutation env data cluster).1 := by
  rcases hm : auroraRebootMutation env data cluster with ⟨calls, res⟩
  cases res with
  | some p =>
      obtain ⟨ti, de⟩ := p
      simp [auroraRebootCreate, hcfg, hdesc, hm, rebootCallsOf_cons, rebootCallOf]
  | none =>
      rcases hw : env.waitClusterAvailable data.clusterIdentifier with e | u <;>
        simp [auroraRebootCreate, hcfg, hdesc, hm, hw, rebootCallsOf_cons,
          rebootCallsOf_append, rebootCallsOf_nil, rebootCallOf]

/-! ## Claim theorems -/

/-- C1: On an Aurora reboot whose describe returned a cluster, the strategy
is a single failover call targeting the first reader in the member list
exactly when the cluster has ≥ 2 members, a reader exists, and
`force_failover` was explicitly set to `true`; in every other case it is a
per-member fan-out issuing one reboot per member over all members in the
returned order, with no failover call. -/
theorem aurora_reboot_strategy_selection
    (env : AuroraEnv) (data : AuroraRebootResourceModel) (now : String)
    (cluster : DBCluster) (crest : List DBCluster)
    (hreg : ∀ reg, data.region = some reg →
      env.loadConfigWithRegion reg = Except.ok ())
    (hdesc : env.describeDBClusters data.clusterIdentifier =
      Except.ok (cluster :: crest))
    (hboots : ∀ inp, env.rebootDBInstance inp = Except.ok ()) :
    if 2 ≤ cluster.dbClusterMembers.length
        ∧ (auroraFindReader cluster.dbClusterMembers).isSome
        ∧ data.forceFailover = some true
    then
      failoverCallsOf (auroraRebootCreate env data now).1 =
          [(data.clusterIdentifier,
            ((auroraFindReader cluster.dbClusterMembers).map
              (fun r => r.dbInstanceIdentifier)).getD "")]
        ∧ rebootCallsOf (auroraRebootCreate env data now).1 = []
    else
      failoverCallsOf (auroraRebootCreate env data now).1 = []
        ∧ rebootCallsOf (auroraRebootCreate env data now).1 =
            cluster.dbClusterMembers.map
              (auroraRebootInput cluster.dbClusterMembers.length
                data.forceFailover) := by
  have hcfg := resolveConfig_ok env.loadConfigWithRegion data.region hreg
  by_cases hcond : 2 ≤ cluster.dbClusterMembers.length
      ∧ (auroraFindReader cluster.dbClusterMembers).isSome
      ∧ data.forceFailover = some true
  · rw [if_pos hcond]
    obtain ⟨hlen, hrd, hff⟩ := hcond
    obtain ⟨r, hr⟩ := Option.isSome_iff_exists.mp hrd
    rcases hf : env.failoverDBCluster data.clusterIdentifier
        r.dbInstanceIdentifier with e | u
    · refine ⟨?_, ?_⟩ <;>
        simp [auroraRebootCreate, hcfg, hdesc, auroraRebootMutation, hr, hlen,
          hff, hf, failoverCallsOf_cons, rebootCallsOf_cons,
          failoverCallsOf_append, rebootCallsOf_append, failoverCallsOf_nil,
          rebootCallsOf_nil, failoverCallOf, rebootCallOf]
    · rcases hw : env.waitClusterAvailable data.clusterIdentifier with e | u <;>
        refine ⟨?_, ?_⟩ <;>
        simp [auroraRebootCreate, hcfg, hdesc, auroraRebootMutation, hr, hlen,
          hff, hf, hw, failoverCallsOf_cons, rebootCallsOf_cons,
          failoverCallsOf_append, rebootCallsOf_append, failoverCallsOf_nil,
          rebootCallsOf_nil, failoverCallOf, rebootCallOf]
  · rw [if_neg hcond]
    have hfan := auroraRebootFanOut_ok env cluster.dbClusterMembers.length
      data.forceFailover cluster.dbClusterMembers (fun m _ => hboots _)
    have hmut : auroraRebootMutation env data cluster =
        (cluster.dbClusterMembers.map (fun m => Call.rebootInstance
          (auroraRebootInput cluster.dbClusterMembers.length
            data.forceFailover m)), none) := by
      unfold auroraRebootMutation
      rcases hr : auroraFindReader cluster.dbClusterMembers with _ | r
      · simpa using hfan
      · have hno : ¬ (2 ≤ cluster.dbClusterMembers.length
            ∧ data.forceFailover = some true) := by
          intro hc
          exact hcond ⟨hc.1, by simp [hr], hc.2⟩
        simp [hno, hfan]
    rcases hw : env.waitClusterAvailable data.clusterIdentifier with e | u <;>
      refine ⟨?_, ?_⟩ <;>
      simp [auroraRebootCreate, hcfg, hdesc, hmut, hw, failoverCallsOf_cons,
        rebootCallsOf_cons, failoverCallsOf_append, rebootCallsOf_append,
        failoverCallsOf_map_reboot, rebootCallsOf_map_reboot,
        failoverCallsOf_nil, rebootCallsOf_nil, failoverCallOf, rebootCallOf]

/-- C1 witness: on the concrete two-member cluster `db-1` (writer `db-1-a`,
reader `db-1-b`) with `force_failover = true`, the strategy is a single
failover targeting `db-1-b` and no per-instance reboot is issued. -/
theorem aurora_reboot_strategy_selection_witness :
    failoverCallsOf (auroraRebootCreate sampleAuroraEnv sampleAuroraData
        "2026-10-11T00:00:00Z").1 = [("db-1", "db-1-b")]
      ∧ rebootCallsOf (auroraRebootCreate sampleAuroraEnv sampleAuroraData
        "2026-10-11T00:00:00Z").1 = [] := by
  have h := aurora_reboot_strategy_selection sampleAuroraEnv sampleAuroraData
    "2026-10-11T00:00:00Z" sampleCluster []
    (fun reg hr => by simp [sampleAuroraData] at hr) rfl (fun inp => rfl)
  have hc : 2 ≤ sampleCluster.dbClusterMembers.length
      ∧ (auroraFindReader sampleCluster.dbClusterMembers).isSome
      ∧ sampleAuroraData.forceFailover = some true := by
    refine ⟨by decide, by decide, rfl⟩
  rw [if_pos hc] at h
  exact ⟨h.1.trans (by decide), h.2⟩

/-- C2 counterexample: rebooting Aurora cluster `db-empty`, which exists but
has zero members, does not fail with an empty-topology error — the fan-out is
vacuous, the cluster-level wait runs, and the operation records success. -/
theorem aurora_reboot_empty_topology_counterexample :
    auroraRebootCreate emptyAuroraEnv emptyAuroraData "2026-10-11T00:00:00Z" =
      ([Call.describeClusters "db-empty", Call.waitClusterAvailable "db-empty"],
       Outcome.success "2026-10-11T00:00:00Z") := by
  rfl

/-- C2 (amended): for both reboot resources a describe result with no
clusters fails with the not-found diagnostic before any mutation; the
zero-member rejection exists only on the Neptune reboot Create path, while
the Aurora reboot on an existing member-less cluster proceeds (no reboot
calls, one cluster wait, success if the wait succeeds). -/
theorem reboot_notfound_and_neptune_only_empty_topology
    (envN : NeptuneEnv) (dataN : NeptuneRebootResourceModel)
    (envA : AuroraEnv) (dataA : AuroraRebootResourceModel) (now : String)
    (hregN : ∀ reg, dataN.region = some reg →
      envN.loadConfigWithRegion reg = Except.ok ())
    (hregA : ∀ reg, dataA.region = some reg →
      envA.loadConfigWithRegion reg = Except.ok ()) :
    (envN.describeDBClusters dataN.clusterIdentifier = Except.ok [] →
      neptuneRebootCreate envN dataN now =
        ([Call.describeClusters dataN.clusterIdentifier],
         Outcome.failure "Neptune cluster not found"
           ("Neptune cluster " ++ dataN.clusterIdentifier ++ " not found")))
    ∧ (∀ cluster crest,
        envN.describeDBClusters dataN.clusterIdentifier =
          Except.ok (cluster :: crest) →
        cluster.dbClusterMembers = [] →
        neptuneRebootCreate envN dataN now =
          ([Call.describeClusters dataN.clusterIdentifier],
           Outcome.failure "No instances in cluster"
             ("Neptune cluster " ++ dataN.clusterIdentifier
               ++ " has no instances to reboot")))
    ∧ (envA.describeDBClusters dataA.clusterIdentifier = Except.ok [] →
        auroraRebootCreate envA dataA now =
          ([Call.describeClusters dataA.clusterIdentifier],
           Outcome.failure "Aurora cluster not found"
             ("No Aurora cluster found with identifier: "
               ++ dataA.clusterIdentifier)))
    ∧ (∀ cluster crest,
        envA.describeDBClusters dataA.clusterIdentifier =
          Except.ok (cluster :: crest) →
        cluster.dbClusterMembers = [] →
        (auroraRebootCreate envA dataA now).1 =
            [Call.describeClusters dataA.clusterIdentifier,
             Call.waitClusterAvailable dataA.clusterIdentifier]
          ∧ (envA.waitClusterAvailable dataA.clusterIdentifier = Except.ok () →
              (auroraRebootCreate envA dataA now).2 = Outcome.success now)) := by
  have hcfgN := resolveConfig_ok envN.loadConfigWithRegion dataN.region hregN
  have hcfgA := resolveConfig_ok envA.loadConfigWithRegion dataA.region hregA
  refine ⟨?_, ?_, ?_, ?_⟩
  · intro hdesc
    simp [neptuneRebootCreate, hcfgN, hdesc]
  · intro cluster crest hdesc hmem
    simp [neptuneRebootCreate, hcfgN, hdesc, hmem]
  · intro hdesc
    simp [auroraRebootCreate, hcfgA, hdesc]
  · intro cluster crest hdesc hmem
    have hmut : auroraRebootMutation envA dataA cluster = ([], none) := by
      simp [auroraRebootMutation, hmem, auroraFindReader, auroraRebootFanOut]
    rcases hw : envA.waitClusterAvailable dataA.clusterIdentifier with e | u
    · refine ⟨?_, ?_⟩ <;>
        simp [auroraRebootCreate, hcfgA, hdesc, hmut, hw]
    · refine ⟨?_, ?_⟩ <;>
        simp [auroraRebootCreate, hcfgA, hdesc, hmut, hw]

/-- C2 witness: the amended behavior evaluated on concrete environments — a
missing Neptune cluster, an existing member-less Neptune cluster, a missing
Aurora cluster, and an existing member-less Aurora cluster. -/
theorem reboot_notfound_and_neptune_only_empty_topology_witness :
    neptuneRebootCreate notFoundNeptuneEnv sampleNeptuneData "t0" =
        ([Call.describeClusters "nep-1"],
         Outcome.failure "Neptune cluster not found"
           "Neptune cluster nep-1 not found")
      ∧ neptuneRebootCreate emptyNeptuneEnv sampleNeptuneData "t0" =
        ([Call.describeClusters "nep-1"],
         Outcome.failure "No instances in cluster"
           "Neptune cluster nep-1 has no instances to reboot")
      ∧ auroraRebootCreate notFoundAuroraEnv emptyAuroraData "t0" =
        ([Call.describeClusters "db-empty"],
         Outcome.failure "Aurora cluster not found"
           "No Aurora cluster found with identifier: db-empty")
      ∧ (auroraRebootCreate emptyAuroraEnv emptyAuroraData "t0").2 =
        Outcome.success "t0" := by
  have hnf := (reboot_notfound_and_neptune_only_empty_topology
    notFoundNeptuneEnv sampleNeptuneData notFoundAuroraEnv emptyAuroraData "t0"
    (fun reg hr => by simp [sampleNeptuneData] at hr)
    (fun reg hr => by simp [emptyAuroraData] at hr))
  have het := (reboot_notfound_and_neptune_only_empty_topology
    emptyNeptuneEnv sampleNeptuneData emptyAuroraEnv emptyAuroraData "t0"
    (fun reg hr => by simp [sampleNeptuneData] at hr)
    (fun reg hr => by simp [emptyAuroraData] at hr))
  refine ⟨hnf.1 rfl, ?_, hnf.2.2.1 rfl, ?_⟩
  · have h := het.2.1 emptyMembersCluster [] rfl rfl
    simpa using h
  · have h := (het.2.2.2 emptyMembersCluster [] rfl rfl).2 rfl
    simpa using h

/-- C3 counterexample: in the Aurora fan-out on the two-member cluster
`db-1`, both member instances are rebooted, yet no per-instance wait is ever
issued — the waiter performs a single cluster-level wait instead of waiting
on each touched resource. -/
theorem aurora_wait_not_per_touched_member_counterexample :
    rebootCallsOf (auroraRebootCreate sampleAuroraEnv sampleAuroraDataNoFF
        "2026-10-11T00:00:00Z").1 =
        [⟨"db-1-a", none⟩, ⟨"db-1-b", none⟩]
      ∧ instanceWaitsOf (auroraRebootCreate sampleAuroraEnv sampleAuroraDataNoFF
        "2026-10-11T00:00:00Z").1 = []
      ∧ clusterWaitsOf (auroraRebootCreate sampleAuroraEnv sampleAuroraDataNoFF
        "2026-10-11T00:00:00Z").1 = ["db-1"] := by
  exact ⟨rfl, rfl, rfl⟩

/-- C3 (amended): the Neptune reboot waits on each rebooted member
sequentially in issuance order, and the first wait failure aborts the
operation leaving the remaining members unwatched; the Aurora reboot instead
performs a single cluster-level wait regardless of how many members were
rebooted, with no per-instance wait. -/
theorem convergence_wait_sequencing
    (envN : NeptuneEnv) (dataN : NeptuneRebootResourceModel)
    (envA : AuroraEnv) (dataA : AuroraRebootResourceModel) (now : String)
    (hregN : ∀ reg, dataN.region = some reg →
      envN.loadConfigWithRegion reg = Except.ok ())
    (hregA : ∀ reg, dataA.region = some reg →
      envA.loadConfigWithRegion reg = Except.ok ())
    (hbootsN : ∀ iid, envN.rebootDBInstance iid = Except.ok ())
    (hbootsA : ∀ inp, envA.rebootDBInstance inp = Except.ok ())
    (hfoA : ∀ c t, envA.failoverDBCluster c t = Except.ok ()) :
    (∀ cluster crest,
      envN.describeDBClusters dataN.clusterIdentifier =
        Except.ok (cluster :: crest) →
      cluster.dbClusterMembers ≠ [] →
      (∀ m ∈ cluster.dbClusterMembers,
        envN.waitInstanceAvailable m.dbInstanceIdentifier = Except.ok ()) →
      instanceWaitsOf (neptuneRebootCreate envN dataN now).1 =
          cluster.dbClusterMembers.map (fun m => m.dbInstanceIdentifier)
        ∧ (neptuneRebootCreate envN dataN now).2 = Outcome.success now)
    ∧ (∀ cluster crest pre bad rest e,
      envN.describeDBClusters dataN.clusterIdentifier =
        Except.ok (cluster :: crest) →
      cluster.dbClusterMembers = pre ++ bad :: rest →
      (∀ m ∈ pre,
        envN.waitInstanceAvailable m.dbInstanceIdentifier = Except.ok ()) →
      envN.waitInstanceAvailable bad.dbInstanceIdentifier = Except.error e →
      instanceWaitsOf (neptuneRebootCreate envN dataN now).1 =
          (pre ++ [bad]).map (fun m => m.dbInstanceIdentifier)
        ∧ (neptuneRebootCreate envN dataN now).2 =
            Outcome.failure "Error waiting for Neptune instance to become available"
              ("Could not confirm Neptune instance " ++ bad.dbInstanceIdentifier
                ++ " availability: " ++ e))
    ∧ (∀ cluster crest,
      envA.describeDBClusters dataA.clusterIdentifier =
        Except.ok (cluster :: crest) →
      instanceWaitsOf (auroraRebootCreate envA dataA now).1 = []
        ∧ clusterWaitsOf (auroraRebootCreate envA dataA now).1 =
            [dataA.clusterIdentifier]) := by
  have hcfgN := resolveConfig_ok envN.loadConfigWithRegion dataN.region hregN
  have hcfgA := resolveConfig_ok envA.loadConfigWithRegion dataA.region hregA
  refine ⟨?_, ?_, ?_⟩
  · intro cluster crest hdesc hne hwaits
    have hfan := neptuneRebootFanOut_ok envN cluster.dbClusterMembers
      (fun m _ => hbootsN _)
    have hwa := neptuneWaitAll_ok envN cluster.dbClusterMembers hwaits
    refine ⟨?_, ?_⟩ <;>
      simp [neptuneRebootCreate, hcfgN, hdesc, hne, hfan, hwa,
        instanceWaitsOf_cons, instanceWaitsOf_append,
        instanceWaitsOf_map_reboot, instanceWaitsOf_map_wait,
        instanceWaitsOf_nil, instanceWaitOf]
  · intro cluster crest pre bad rest e hdesc hmem hpre hbad
    have hfan := neptuneRebootFanOut_ok envN cluster.dbClusterMembers
      (fun m _ => hbootsN _)
    have hwa := neptuneWaitAll_err envN pre bad rest e hpre hbad
    rw [hmem] at hfan
    have hne : pre ++ bad :: rest ≠ [] := by simp
    refine ⟨?_, ?_⟩ <;>
      simp [neptuneRebootCreate, hcfgN, hdesc, hmem, hne, hfan, hwa,
        instanceWaitsOf_cons, instanceWaitsOf_append,
        instanceWaitsOf_map_reboot, instanceWaitsOf_map_wait,
        instanceWaitsOf_nil, instanceWaitOf]
  · intro cluster crest hdesc
    have hmut := auroraRebootMutation_ok envA dataA cluster hbootsA hfoA
    have hnw := auroraRebootMutation_no_waits envA dataA cluster
    rcases hm : auroraRebootMutation envA dataA cluster with ⟨calls, res⟩
    rw [hm] at hmut hnw
    subst hmut
    rcases hw : envA.waitClusterAvailable dataA.clusterIdentifier with e | u <;>
      refine ⟨?_, ?_⟩ <;>
      simp [auroraRebootCreate, hcfgA, hdesc, hm, hw, instanceWaitsOf_cons,
        instanceWaitsOf_append, clusterWaitsOf_cons, clusterWaitsOf_append,
        instanceWaitsOf_nil, clusterWaitsOf_nil, instanceWaitOf, clusterWaitOf,
        hnw.1, hnw.2]

/-- C3 witness: on the two-member Neptune cluster `nep-1`, the all-success
run waits on `nep-1-a` then `nep-1-b` and succeeds; when the wait on
`nep-1-b` fails, `nep-1-a` and `nep-1-b` are the only waits and the
operation aborts with the wait diagnostic; the Aurora fan-out on `db-1`
issues no per-instance wait and one cluster wait. -/
theorem convergence_wait_sequencing_witness :
    (instanceWaitsOf (neptuneRebootCreate sampleNeptuneEnv sampleNeptuneData
          "t0").1 = ["nep-1-a", "nep-1-b"]
      ∧ (neptuneRebootCreate sampleNeptuneEnv sampleNeptuneData "t0").2 =
          Outcome.success "t0")
    ∧ (instanceWaitsOf (neptuneRebootCreate failSecondWaitNeptuneEnv
          sampleNeptuneData "t0").1 = ["nep-1-a", "nep-1-b"]
      ∧ (neptuneRebootCreate failSecondWaitNeptuneEnv sampleNeptuneData
          "t0").2 =
          Outcome.failure "Error waiting for Neptune instance to become available"
            "Could not confirm Neptune instance nep-1-b availability: exceeded wait budget")
    ∧ (instanceWaitsOf (auroraRebootCreate sampleAuroraEnv sampleAuroraDataNoFF
          "t0").1 = []
      ∧ clusterWaitsOf (auroraRebootCreate sampleAuroraEnv sampleAuroraDataNoFF
          "t0").1 = ["db-1"]) := by
  have hok := (convergence_wait_sequencing sampleNeptuneEnv sampleNeptuneData
    sampleAuroraEnv sampleAuroraDataNoFF "t0"
    (fun reg hr => by simp [sampleNeptuneData] at hr)
    (fun reg hr => by simp [sampleAuroraDataNoFF] at hr)
    (fun iid => rfl) (fun inp => rfl) (fun c t => rfl))
  have herr := (convergence_wait_sequencing failSecondWaitNeptuneEnv
    sampleNeptuneData sampleAuroraEnv sampleAuroraDataNoFF "t0"
    (fun reg hr => by simp [sampleNeptuneData] at hr)
    (fun reg hr => by simp [sampleAuroraDataNoFF] at hr)
    (fun iid => rfl) (fun inp => rfl) (fun c t => rfl))
  refine ⟨?_, ?_, ?_⟩
  · have h := hok.1 sampleNeptuneCluster [] rfl (by decide)
      (fun m _ => rfl)
    simpa using h
  · have h := herr.2.1 sampleNeptuneCluster [] [sampleNeptuneMemberA]
      sampleNeptuneMemberB [] "exceeded wait budget" rfl rfl
      (fun m hm => by rw [List.mem_singleton] at hm; subst hm; rfl) rfl
    simpa using h
  · exact hok.2.2 sampleCluster [] rfl

/-- C4: a run of the 60-attempt / 30-second manual polling loop in which no
describe call errors and the status is never `available` performs all 60
describe attempts and only then times out (reported as the 30-minute budget
diagnostic); and on the first attempt `j` that observes `available` the loop
stops immediately after attempt `j`, issuing no further describe. -/
theorem manual_poll_loop_budget
    (describe : Nat → Except String (List DBCluster)) :
    ((∀ i, i < 60 →
        ∃ cs, describe i = Except.ok cs ∧ clusterAvailable cs = false) →
      pollLoop describe neptuneModifyMaxAttempts =
        (List.range 60, PollResult.timedOut))
    ∧ (∀ j, j < 60 →
        (∀ i, i < j →
          ∃ cs, describe i = Except.ok cs ∧ clusterAvailable cs = false) →
        (∃ cs, describe j = Except.ok cs ∧ clusterAvailable cs = true) →
        pollLoop describe neptuneModifyMaxAttempts =
          (List.range (j + 1), PollResult.became j))
    ∧ (∀ (env : NeptuneModifyEnv) (data : NeptuneModifyResourceModel)
        (now : String),
        (∀ reg, data.region = some reg →
          env.loadConfigWithRegion reg = Except.ok ()) →
        env.modifyDBCluster (neptuneModifyInput data) = Except.ok () →
        (∀ i, i < 60 → ∃ cs, env.describeDBClusters i = Except.ok cs
          ∧ clusterAvailable cs = false) →
        (neptuneModifyCreate env data now).2 =
          Outcome.failure "Timeout waiting for Neptune cluster"
            "Neptune cluster did not become available within 30 minutes") := by
  refine ⟨?_, ?_, ?_⟩
  · intro h
    have hp := pollLoopAux_timedOut describe 60 60 0 (by omega) (by omega)
      (fun k _ hk => h k hk)
    simpa [pollLoop, neptuneModifyMaxAttempts, List.range_eq_range'] using hp
  · intro j hj h hav
    have hp := pollLoopAux_became describe 60 60 0 j (by omega) (by omega) hj
      (fun k _ hk => h k hk) hav
    simpa [pollLoop, neptuneModifyMaxAttempts, List.range_eq_range'] using hp
  · intro env data now hreg hmod h
    have hcfg := resolveConfig_ok env.loadConfigWithRegion data.region hreg
    have hp : pollLoop env.describeDBClusters neptuneModifyMaxAttempts =
        (List.range' 0 60, PollResult.timedOut) :=
      pollLoopAux_timedOut env.describeDBClusters 60 60 0 (by omega) (by omega)
        (fun k _ hk => h k hk)
    simp [neptuneModifyCreate, hcfg, hmod, hp]

/-- C4 witness: a describe sequence that never reports `available` makes the
loop issue describes at all 60 attempts and time out; one that first reports
`available` at attempt 2 stops after attempts 0, 1, 2; and the Neptune
modify operation on the never-available environment fails with the
30-minute budget diagnostic. -/
theorem manual_poll_loop_budget_witness :
    pollLoop neverAvailableDescribe neptuneModifyMaxAttempts =
        (List.range 60, PollResult.timedOut)
      ∧ pollLoop availableAtTwoDescribe neptuneModifyMaxAttempts =
        (List.range 3, PollResult.became 2)
      ∧ (neptuneModifyCreate timeoutNeptuneModifyEnv sampleNeptuneModifyData
          "t0").2 =
        Outcome.failure "Timeout waiting for Neptune cluster"
          "Neptune cluster did not become available within 30 minutes" := by
  refine ⟨?_, ?_, ?_⟩
  · exact (manual_poll_loop_budget neverAvailableDescribe).1
      (fun i _ => ⟨[⟨[], "modifying"⟩], rfl, rfl⟩)
  · exact (manual_poll_loop_budget availableAtTwoDescribe).2.1 2 (by omega)
      (fun i hi => ⟨[⟨[], "modifying"⟩],
        by
          have h2 : ¬ 2 ≤ i := by omega
          simp [availableAtTwoDescribe, h2],
        rfl⟩)
      ⟨[⟨[], "available"⟩], rfl, rfl⟩
  · exact (manual_poll_loop_budget
      timeoutNeptuneModifyEnv.describeDBClusters).2.2
      timeoutNeptuneModifyEnv sampleNeptuneModifyData "t0"
      (fun reg hr => by simp [sampleNeptuneModifyData] at hr) rfl
      (fun i _ => ⟨[⟨[], "modifying"⟩], rfl, rfl⟩)

/-- C5: the recorded outcome is never partial: a success outcome carries
exactly the fresh (non-empty) timestamp and is only produced after the
convergence wait / poll succeeded, while every failure outcome carries a
non-empty error detail and (by construction of `Outcome.failure`) no
timestamp. -/
theorem mutation_outcome_invariant
    (envA : AuroraEnv) (dataA : AuroraRebootResourceModel)
    (envM : NeptuneModifyEnv) (dataM : NeptuneModifyResourceModel)
    (now : String) (hnow : now ≠ "") :
    (∀ t, (auroraRebootCreate envA dataA now).2 = Outcome.success t →
      t = now ∧ t ≠ ""
        ∧ envA.waitClusterAvailable dataA.clusterIdentifier = Except.ok ())
    ∧ (∀ title detail,
        (auroraRebootCreate envA dataA now).2 = Outcome.failure title detail →
        detail ≠ "")
    ∧ (∀ t, (neptuneModifyCreate envM dataM now).2 = Outcome.success t →
      t = now ∧ t ≠ ""
        ∧ ∃ j, (pollLoop envM.describeDBClusters neptuneModifyMaxAttempts).2 =
            PollResult.became j)
    ∧ (∀ title detail,
        (neptuneModifyCreate envM dataM now).2 = Outcome.failure title detail →
        detail ≠ "") := by
  refine ⟨?_, ?_, ?_, ?_⟩
  · intro t ht
    rcases hc : resolveConfig envA.loadConfigWithRegion dataA.region with e | u
    · simp [auroraRebootCreate, hc] at ht
    · rcases hd : envA.describeDBClusters dataA.clusterIdentifier with e | cs
      · simp [auroraRebootCreate, hc, hd] at ht
      · cases cs with
        | nil => simp [auroraRebootCreate, hc, hd] at ht
        | cons cluster crest =>
          rcases hm : auroraRebootMutation envA dataA cluster with ⟨calls, res⟩
          cases res with
          | some p =>
              obtain ⟨ti, de⟩ := p
              simp [auroraRebootCreate, hc, hd, hm] at ht
          | none =>
              rcases hw : envA.waitClusterAvailable dataA.clusterIdentifier
                  with e | u2
              · simp [auroraRebootCreate, hc, hd, hm, hw] at ht
              · simp [auroraRebootCreate, hc, hd, hm, hw] at ht
                cases u2
                refine ⟨ht.symm, ?_, ?_⟩
                · rw [← ht]; exact hnow
                · rfl
  · intro title detail ht
    rcases hc : resolveConfig envA.loadConfigWithRegion dataA.region with e | u
    · simp [auroraRebootCreate, hc] at ht
      rw [← ht.2]
      exact append_left_ne_empty _ _ (append_left_ne_empty _ _
        (append_left_ne_empty _ _ (by decide)))
    · rcases hd : envA.describeDBClusters dataA.clusterIdentifier with e | cs
      · simp [auroraRebootCreate, hc, hd] at ht
        rw [← ht.2]
        exact append_left_ne_empty _ _ (by decide)
      · cases cs with
        | nil =>
            simp [auroraRebootCreate, hc, hd] at ht
            rw [← ht.2]
            exact append_left_ne_empty _ _ (by decide)
        | cons cluster crest =>
          rcases hm : auroraRebootMutation envA dataA cluster with ⟨calls, res⟩
          cases res with
          | some p =>
              obtain ⟨ti, de⟩ := p
              simp [auroraRebootCreate, hc, hd, hm] at ht
              rw [← ht.2]
              exact auroraRebootMutation_failure_detail envA dataA cluster ti de
                (by rw [hm])
          | none =>
              rcases hw : envA.waitClusterAvailable dataA.clusterIdentifier
                  with e | u2
              · simp [auroraRebootCreate, hc, hd, hm, hw] at ht
                rw [← ht.2]
                exact append_left_ne_empty _ _ (by decide)
              · simp [auroraRebootCreate, hc, hd, hm, hw] at ht
  · intro t ht
    rcases hc : resolveConfig envM.loadConfigWithRegion dataM.region with e | u
    · simp [neptuneModifyCreate, hc] at ht
    · rcases hmod : envM.modifyDBCluster (neptuneModifyInput dataM) with e | u1
      · simp [neptuneModifyCreate, hc, hmod] at ht
      · rcases hp : pollLoop envM.describeDBClusters neptuneModifyMaxAttempts
            with ⟨att, pres⟩
        cases pres with
        | became j =>
            simp [neptuneModifyCreate, hc, hmod, hp] at ht
            refine ⟨ht.symm, ?_, j, ?_⟩
            · rw [← ht]; exact hnow
            · rfl
        | describeFailed i e => simp [neptuneModifyCreate, hc, hmod, hp] at ht
        | timedOut => simp [neptuneModifyCreate, hc, hmod, hp] at ht
        | ranOut =>
            exfalso
            have hne := pollLoopAux_ne_ranOut envM.describeDBClusters
              neptuneModifyMaxAttempts neptuneModifyMaxAttempts 0
              (by omega) (by decide)
            unfold pollLoop at hp
            exact hne (by rw [hp])
  · intro title detail ht
    rcases hc : resolveConfig envM.loadConfigWithRegion dataM.region with e | u
    · simp [neptuneModifyCreate, hc] at ht
      rw [← ht.2]
      exact append_left_ne_empty _ _ (append_left_ne_empty _ _
        (append_left_ne_empty _ _ (by decide)))
    · rcases hmod : envM.modifyDBCluster (neptuneModifyInput dataM) with e | u1
      · simp [neptuneModifyCreate, hc, hmod] at ht
        rw [← ht.2]
        exact append_left_ne_empty _ _ (by decide)
      · rcases hp : pollLoop envM.describeDBClusters neptuneModifyMaxAttempts
            with ⟨att, pres⟩
        cases pres with
        | became j => simp [neptuneModifyCreate, hc, hmod, hp] at ht
        | describeFailed i e =>
            simp [neptuneModifyCreate, hc, hmod, hp] at ht
            rw [← ht.2]
            exact append_left_ne_empty _ _ (by decide)
        | timedOut =>
            simp [neptuneModifyCreate, hc, hmod, hp] at ht
            rw [← ht.2]
            decide
        | ranOut => simp [neptuneModifyCreate, hc, hmod, hp] at ht

/-- C5 witness: on the all-success two-member Aurora failover run the
outcome is success with the fresh timestamp recorded after the cluster wait
succeeded, and on the Neptune modify run converging at poll attempt 2 the
outcome is success with the poll loop having observed `available`. -/
theorem mutation_outcome_invariant_witness :
    (("t1" : String) = "t1" ∧ ("t1" : String) ≠ ""
      ∧ sampleAuroraEnv.waitClusterAvailable "db-1" = Except.ok ())
    ∧ (∃ j, (pollLoop convergingNeptuneModifyEnv.describeDBClusters
        neptuneModifyMaxAttempts).2 = PollResult.became j) := by
  have h := mutation_outcome_invariant sampleAuroraEnv sampleAuroraData
    convergingNeptuneModifyEnv sampleNeptuneModifyData "t1" (by decide)
  have h1 := h.1 "t1" rfl
  have h3 := h.2.2.1 "t1" rfl
  exact ⟨h1, h3.2.2⟩

/-- C6: in both per-member fan-outs the reboot calls are issued sequentially
in the member-list order, and the first erroring call aborts the remaining
fan-out — the trace ends with the failing member's reboot, the error is the
operation's outcome, and no convergence wait is started. -/
theorem fan_out_first_error_aborts
    (envN : NeptuneEnv) (dataN : NeptuneRebootResourceModel)
    (envA : AuroraEnv) (dataA : AuroraRebootResourceModel) (now : String)
    (hregN : ∀ reg, dataN.region = some reg →
      envN.loadConfigWithRegion reg = Except.ok ())
    (hregA : ∀ reg, dataA.region = some reg →
      envA.loadConfigWithRegion reg = Except.ok ()) :
    (∀ cluster crest pre bad rest e,
      envN.describeDBClusters dataN.clusterIdentifier =
        Except.ok (cluster :: crest) →
      cluster.dbClusterMembers = pre ++ bad :: rest →
      (∀ m ∈ pre, envN.rebootDBInstance m.dbInstanceIdentifier = Except.ok ()) →
      envN.rebootDBInstance bad.dbInstanceIdentifier = Except.error e →
      neptuneRebootCreate envN dataN now =
        (Call.describeClusters dataN.clusterIdentifier ::
          (pre ++ [bad]).map
            (fun m => Call.rebootInstance ⟨m.dbInstanceIdentifier, none⟩),
         Outcome.failure "Error rebooting Neptune instance"
           ("Could not reboot Neptune instance " ++ bad.dbInstanceIdentifier
             ++ ": " ++ e)))
    ∧ (∀ cluster crest pre bad rest e,
      envA.describeDBClusters dataA.clusterIdentifier =
        Except.ok (cluster :: crest) →
      cluster.dbClusterMembers = pre ++ bad :: rest →
      ¬ (2 ≤ cluster.dbClusterMembers.length
          ∧ (auroraFindReader cluster.dbClusterMembers).isSome
          ∧ dataA.forceFailover = some true) →
      (∀ m ∈ pre, envA.rebootDBInstance
        (auroraRebootInput cluster.dbClusterMembers.length
          dataA.forceFailover m) = Except.ok ()) →
      envA.rebootDBInstance
        (auroraRebootInput cluster.dbClusterMembers.length
          dataA.forceFailover bad) = Except.error e →
      auroraRebootCreate envA dataA now =
        (Call.describeClusters dataA.clusterIdentifier ::
          (pre ++ [bad]).map (fun m => Call.rebootInstance
            (auroraRebootInput cluster.dbClusterMembers.length
              dataA.forceFailover m)),
         Outcome.failure "Error rebooting Aurora instance"
           ("Could not reboot Aurora instance " ++ bad.dbInstanceIdentifier
             ++ ": " ++ e))) := by
  have hcfgN := resolveConfig_ok envN.loadConfigWithRegion dataN.region hregN
  have hcfgA := resolveConfig_ok envA.loadConfigWithRegion dataA.region hregA
  refine ⟨?_, ?_⟩
  · intro cluster crest pre bad rest e hdesc hmem hpre hbad
    have hfan := neptuneRebootFanOut_err envN pre bad rest e hpre hbad
    simp [neptuneRebootCreate, hcfgN, hdesc, hmem, hfan]
  · intro cluster crest pre bad rest e hdesc hmem hno hpre hbad
    have hfan := auroraRebootFanOut_err envA cluster.dbClusterMembers.length
      dataA.forceFailover pre bad rest e hpre hbad
    rw [← hmem] at hfan
    have hmut : auroraRebootMutation envA dataA cluster =
        ((pre ++ [bad]).map (fun m => Call.rebootInstance
          (auroraRebootInput cluster.dbClusterMembers.length
            dataA.forceFailover m)),
         some ("Error rebooting Aurora instance",
           "Could not reboot Aurora instance " ++ bad.dbInstanceIdentifier
             ++ ": " ++ e)) := by
      unfold auroraRebootMutation
      rcases hr : auroraFindReader cluster.dbClusterMembers with _ | r
      · exact hfan
      · have hc : ¬ (2 ≤ cluster.dbClusterMembers.length
            ∧ dataA.forceFailover = some true) := by
          intro hc
          exact hno ⟨hc.1, by simp [hr], hc.2⟩
        simp only [if_neg hc]
        exact hfan
    simp [auroraRebootCreate, hcfgA, hdesc, hmut]

/-- C6 witness: on the two-member clusters where rebooting the second member
fails with `throttled`, both resources reboot the first member, attempt the
second, then abort with the reboot diagnostic and never start a wait. -/
theorem fan_out_first_error_aborts_witness :
    neptuneRebootCreate failSecondRebootNeptuneEnv sampleNeptuneData "t0" =
        ([Call.describeClusters "nep-1",
          Call.rebootInstance ⟨"nep-1-a", none⟩,
          Call.rebootInstance ⟨"nep-1-b", none⟩],
         Outcome.failure "Error rebooting Neptune instance"
           "Could not reboot Neptune instance nep-1-b: throttled")
      ∧ auroraRebootCreate failSecondRebootAuroraEnv sampleAuroraDataNoFF "t0" =
        ([Call.describeClusters "db-1",
          Call.rebootInstance ⟨"db-1-a", none⟩,
          Call.rebootInstance ⟨"db-1-b", none⟩],
         Outcome.failure "Error rebooting Aurora instance"
           "Could not reboot Aurora instance db-1-b: throttled") := by
  have h := fan_out_first_error_aborts failSecondRebootNeptuneEnv
    sampleNeptuneData failSecondRebootAuroraEnv sampleAuroraDataNoFF "t0"
    (fun reg hr => by simp [sampleNeptuneData] at hr)
    (fun reg hr => by simp [sampleAuroraDataNoFF] at hr)
  refine ⟨?_, ?_⟩
  · have h1 := h.1 sampleNeptuneCluster [] [sampleNeptuneMemberA]
      sampleNeptuneMemberB [] "throttled" rfl rfl
      (fun m hm => by rw [List.mem_singleton] at hm; subst hm; rfl) rfl
    simpa using h1
  · have h2 := h.2 sampleCluster [] [sampleWriter] sampleReader [] "throttled"
      rfl rfl (by decide)
      (fun m hm => by rw [List.mem_singleton] at hm; subst hm; rfl) rfl
    simpa using h2

/-- C7: the Aurora reboot of a single-member cluster always selects the
per-member fan-out with exactly that member, issues no failover call, and
leaves `ForceFailover` unset on the per-instance reboot regardless of the
attribute's value. -/
theorem single_member_cluster_fan_out
    (env : AuroraEnv) (data : AuroraRebootResourceModel) (now : String)
    (cluster : DBCluster) (crest : List DBCluster) (m : DBClusterMember)
    (hreg : ∀ reg, data.region = some reg →
      env.loadConfigWithRegion reg = Except.ok ())
    (hdesc : env.describeDBClusters data.clusterIdentifier =
      Except.ok (cluster :: crest))
    (hmem : cluster.dbClusterMembers = [m]) :
    rebootCallsOf (auroraRebootCreate env data now).1 =
        [⟨m.dbInstanceIdentifier, none⟩]
      ∧ failoverCallsOf (auroraRebootCreate env data now).1 = [] := by
  have hcfg := resolveConfig_ok env.loadConfigWithRegion data.region hreg
  have h21 : ¬ ((2 : Nat) ≤ 1) := by omega
  have hinp : auroraRebootInput 1 data.forceFailover m =
      ⟨m.dbInstanceIdentifier, none⟩ := by
    simp [auroraRebootInput, h21]
  have hmut : auroraRebootMutation env data cluster =
      auroraRebootFanOut env 1 data.forceFailover [m] := by
    unfold auroraRebootMutation
    rw [hmem]
    rcases hr : auroraFindReader [m] with _ | r
    · simp
    · simp [h21]
  rcases hb : env.rebootDBInstance ⟨m.dbInstanceIdentifier, none⟩ with e | u
  · have hfan : auroraRebootFanOut env 1 data.forceFailover [m] =
        ([Call.rebootInstance ⟨m.dbInstanceIdentifier, none⟩],
         some ("Error rebooting Aurora instance",
           "Could not reboot Aurora instance " ++ m.dbInstanceIdentifier
             ++ ": " ++ e)) := by
      simp [auroraRebootFanOut, hinp, hb]
    refine ⟨?_, ?_⟩ <;>
      simp [auroraRebootCreate, hcfg, hdesc, hmut, hfan, rebootCallsOf_cons,
        failoverCallsOf_cons, rebootCallsOf_nil, failoverCallsOf_nil,
        rebootCallOf, failoverCallOf]
  · have hfan : auroraRebootFanOut env 1 data.forceFailover [m] =
        ([Call.rebootInstance ⟨m.dbInstanceIdentifier, none⟩], none) := by
      simp [auroraRebootFanOut, hinp, hb]
    rcases hw : env.waitClusterAvailable data.clusterIdentifier with e | u2 <;>
      refine ⟨?_, ?_⟩ <;>
      simp [auroraRebootCreate, hcfg, hdesc, hmut, hfan, hw, rebootCallsOf_cons,
        failoverCallsOf_cons, rebootCallsOf_append, failoverCallsOf_append,
        rebootCallsOf_nil, failoverCallsOf_nil, rebootCallOf, failoverCallOf]

/-- C7 witness: on a single-member Aurora cluster with
`force_failover = true` the reboot still fans out to exactly that member
with `ForceFailover` left unset, and no failover call is issued. -/
theorem single_member_cluster_fan_out_witness :
    rebootCallsOf (auroraRebootCreate singleMemberAuroraEnv sampleAuroraData
        "t0").1 = [⟨"db-1-solo", none⟩]
      ∧ failoverCallsOf (auroraRebootCreate singleMemberAuroraEnv
        sampleAuroraData "t0").1 = [] := by
  exact single_member_cluster_fan_out singleMemberAuroraEnv sampleAuroraData
    "t0" singleMemberCluster [] ⟨"db-1-solo", true⟩
    (fun reg hr => by simp [sampleAuroraData] at hr) rfl rfl

/-- C8: the read-back existence check of the Aurora reboot resource performs
exactly one describe call; when the Cluster Control API reports the cluster
absent (the describe call errors), it fails immediately with the reading
diagnostic surfacing that error, and no wait of any kind is invoked. -/
theorem verify_exists_absent_fails_immediately
    (env : AuroraEnv) (data : AuroraRebootResourceModel) (e : String)
    (hreg : ∀ reg, data.region = some reg →
      env.loadConfigWithRegion reg = Except.ok ())
    (habs : env.describeDBClusters data.clusterIdentifier = Except.error e) :
    auroraRebootRead env data =
        ([Call.describeClusters data.clusterIdentifier],
         ReadOutcome.failure "Error reading Aurora cluster"
           ("Could not read Aurora cluster: " ++ e))
      ∧ instanceWaitsOf (auroraRebootRead env data).1 = []
      ∧ clusterWaitsOf (auroraRebootRead env data).1 = [] := by
  have hcfg := resolveConfig_ok env.loadConfigWithRegion data.region hreg
  refine ⟨?_, ?_, ?_⟩ <;>
    simp [auroraRebootRead, hcfg, habs, instanceWaitsOf_cons,
      clusterWaitsOf_cons, instanceWaitsOf_nil, clusterWaitsOf_nil,
      instanceWaitOf, clusterWaitOf]

/-- C8 witness: reading cluster `db-empty` against an API that reports it
absent (`DBClusterNotFoundFault`) yields exactly one describe call, the
immediate read failure, and no waits. -/
theorem verify_exists_absent_fails_immediately_witness :
    auroraRebootRead absentAuroraEnv emptyAuroraData =
        ([Call.describeClusters "db-empty"],
         ReadOutcome.failure "Error reading Aurora cluster"
           "Could not read Aurora cluster: DBClusterNotFoundFault")
      ∧ instanceWaitsOf (auroraRebootRead absentAuroraEnv emptyAuroraData).1 = []
      ∧ clusterWaitsOf (auroraRebootRead absentAuroraEnv emptyAuroraData).1 = [] := by
  have h := verify_exists_absent_fails_immediately absentAuroraEnv
    emptyAuroraData "DBClusterNotFoundFault"
    (fun reg hr => by simp [emptyAuroraData] at hr) rfl
  simpa using h

/-- C9: the Neptune reboot rejects an empty member list only on Create; the
Update path on an existing member-less cluster issues zero reboot calls,
performs zero waits, and completes as success with the fresh timestamp. -/
theorem neptune_update_empty_topology_not_rejected
    (env : NeptuneEnv) (data : NeptuneRebootResourceModel) (now : String)
    (cluster : DBCluster) (crest : List DBCluster)
    (hreg : ∀ reg, data.region = some reg →
      env.loadConfigWithRegion reg = Except.ok ())
    (hdesc : env.describeDBClusters data.clusterIdentifier =
      Except.ok (cluster :: crest))
    (hmem : cluster.dbClusterMembers = []) :
    neptuneRebootUpdate env data now =
        ([Call.describeClusters data.clusterIdentifier], Outcome.success now)
      ∧ neptuneRebootCreate env data now =
        ([Call.describeClusters data.clusterIdentifier],
         Outcome.failure "No instances in cluster"
           ("Neptune cluster " ++ data.clusterIdentifier
             ++ " has no instances to reboot")) := by
  have hcfg := resolveConfig_ok env.loadConfigWithRegion data.region hreg
  refine ⟨?_, ?_⟩
  · simp [neptuneRebootUpdate, hcfg, hdesc, hmem, neptuneRebootFanOut,
      neptuneWaitAll]
  · simp [neptuneRebootCreate, hcfg, hdesc, hmem]

/-- C9 witness: on the existing member-less Neptune cluster, Update records
success with the fresh timestamp after zero reboots and zero waits, while
Create fails with the no-instances diagnostic. -/
theorem neptune_update_empty_topology_not_rejected_witness :
    neptuneRebootUpdate emptyNeptuneEnv sampleNeptuneData "t9" =
        ([Call.describeClusters "nep-1"], Outcome.success "t9")
      ∧ neptuneRebootCreate emptyNeptuneEnv sampleNeptuneData "t9" =
        ([Call.describeClusters "nep-1"],
         Outcome.failure "No instances in cluster"
           "Neptune cluster nep-1 has no instances to reboot") := by
  have h := neptune_update_empty_topology_not_rejected emptyNeptuneEnv
    sampleNeptuneData "t9" emptyMembersCluster []
    (fun reg hr => by simp [sampleNeptuneData] at hr) rfl rfl
  simpa using h

/-- C10: in the Aurora reboot fan-out over a cluster with at least two
members, a non-null `force_failover` attribute is forwarded on every
per-instance reboot call with its literal value — including `false`. -/
theorem aurora_fan_out_forwards_force_failover_value
    (env : AuroraEnv) (data : AuroraRebootResourceModel) (now : String)
    (b : Bool) (cluster : DBCluster) (crest : List DBCluster)
    (hreg : ∀ reg, data.region = some reg →
      env.loadConfigWithRegion reg = Except.ok ())
    (hdesc : env.describeDBClusters data.clusterIdentifier =
      Except.ok (cluster :: crest))
    (hff : data.forceFailover = some b)
    (hlen : 2 ≤ cluster.dbClusterMembers.length) :
    ∀ inp ∈ rebootCallsOf (auroraRebootCreate env data now).1,
      inp.forceFailover = some b := by
  have hcfg := resolveConfig_ok env.loadConfigWithRegion data.region hreg
  intro inp hin
  rw [auroraRebootCreate_rebootCalls env data now cluster crest hcfg hdesc]
    at hin
  obtain ⟨m, _, heq⟩ := auroraRebootMutation_calls_shape env data cluster inp hin
  subst heq
  simp [auroraRebootInput, hff, hlen]

/-- C10 witness: on the two-member cluster `db-1` with
`force_failover = false`, both per-instance reboot calls carry
`ForceFailover = false`. -/
theorem aurora_fan_out_forwards_force_failover_value_witness :
    rebootCallsOf (auroraRebootCreate sampleAuroraEnv sampleAuroraDataFFFalse
        "t0").1 = [⟨"db-1-a", some false⟩, ⟨"db-1-b", some false⟩]
      ∧ ∀ inp ∈ rebootCallsOf (auroraRebootCreate sampleAuroraEnv
          sampleAuroraDataFFFalse "t0").1,
        inp.forceFailover = some false := by
  refine ⟨rfl, ?_⟩
  exact aurora_fan_out_forwards_force_failover_value sampleAuroraEnv
    sampleAuroraDataFFFalse "t0" false sampleCluster []
    (fun reg hr => by simp [sampleAuroraDataFFFalse] at hr) rfl rfl (by decide)

end GdpHelper
